import Mathlib

/-!
Verification of the Atlas trade-decision pipeline.

Shallow embedding of the core pipeline of the Atlas frontend repository:
the technical-indicator engine (src/lib/yahoofinance/utils.ts), the market
data fetcher and its MongoDB-backed TTL cache (src/lib/yahoofinance/fetcher.ts,
the caching layer and src/lib/mongodb queries), symbol extraction and the
agent tools (src/lib/gemini), the orchestrator and its response parsing
(the agent module), and the order-approval state machine.

JavaScript numbers are modelled as exact rationals; Math.round and the
two-decimal rounding idiom Math.round(x * 100) / 100 are modelled exactly
(JS Math.round is floor(x + 1/2), ties toward positive infinity).
-/

namespace Atlas

/-- JS Math.round: floor of x + 1/2 (ties go toward positive infinity). -/
def jsRound (q : ℚ) : ℤ := ⌊q + 1/2⌋

/-- The source idiom Math.round(x * 100) / 100: round to two decimals. -/
def round2 (q : ℚ) : ℚ := ((jsRound (q * 100) : ℤ) : ℚ) / 100

/-- JS expression v || d on an optional number: d when the value is absent
or when it is 0 (0 is falsy in JS). -/
def jsOr (v : Option ℚ) (d : ℚ) : ℚ :=
  match v with
  | some x => if x = 0 then d else x
  | none => d

/-- JS arr.slice(-n) for n > 0: the last n elements (whole list when shorter). -/
def sliceLast (n : ℕ) (l : List ℚ) : List ℚ := l.drop (l.length - n)

/-! ## IndicatorEngine: src/lib/yahoofinance/utils.ts -/

/-- The changes loop of calculateRSI: consecutive differences
prices[i] - prices[i-1] for i = 1 .. length-1. -/
def priceChanges : List ℚ → List ℚ
  | a :: b :: rest => (b - a) :: priceChanges (b :: rest)
  | _ => []

/-- changes.map(c => c > 0 ? c : 0) -/
def rsiGains (changes : List ℚ) : List ℚ :=
  changes.map (fun c => if 0 < c then c else 0)

/-- changes.map(c => c < 0 ? Math.abs(c) : 0) -/
def rsiLosses (changes : List ℚ) : List ℚ :=
  changes.map (fun c => if c < 0 then |c| else 0)

/-- The avgGain local of calculateRSI: mean of the last period gains. -/
def avgGain (prices : List ℚ) (period : ℕ) : ℚ :=
  (sliceLast period (rsiGains (priceChanges prices))).sum / period

/-- The avgLoss local of calculateRSI: mean of the last period losses. -/
def avgLoss (prices : List ℚ) (period : ℕ) : ℚ :=
  (sliceLast period (rsiLosses (priceChanges prices))).sum / period

/-- calculateRSI from src/lib/yahoofinance/utils.ts (period defaults to 14
at every call site; the local changes, gains, losses, avgGain and avgLoss
bindings are hoisted into the definitions above). Returns 50 when fewer
than period + 1 samples, 100 when the average loss over the last period
deltas is 0, otherwise the Wilder-style ratio rounded to two decimals. -/
def calculateRSI (prices : List ℚ) (period : ℕ) : ℚ :=
  if prices.length < period + 1 then 50
  else if avgLoss prices period = 0 then 100
  else
    let rs := avgGain prices period / avgLoss prices period
    let rsi := 100 - 100 / (1 + rs)
    round2 rsi

/-- calculateMA from src/lib/yahoofinance/utils.ts: mean of the last period
values rounded to two decimals; with fewer samples, the raw last price
(or 0 for an empty list, from the JS expression prices[length-1] || 0,
which also maps a last price of exactly 0 to 0). -/
def calculateMA (prices : List ℚ) (period : ℕ) : ℚ :=
  if prices.length < period then (prices.getLast?).getD 0
  else round2 ((sliceLast period prices).sum / period)

/-- MACD result record from src/lib/yahoofinance/utils.ts. -/
structure MACDResult where
  value : ℚ
  signal : ℚ
  histogram : ℚ
deriving DecidableEq, Repr

/-- calculateMACD from src/lib/yahoofinance/utils.ts. The simplified form
in the source: SMA(12) - SMA(26), the signal set to the same value and the
histogram to their difference, each rounded to two decimals; all zero for
fewer than 26 samples. -/
def calculateMACD (prices : List ℚ) : MACDResult :=
  if prices.length < 26 then ⟨0, 0, 0⟩
  else
    let ema12 := calculateMA prices 12
    let ema26 := calculateMA prices 26
    let macdValue := ema12 - ema26
    let signal := macdValue
    let histogram := macdValue - signal
    ⟨round2 macdValue, round2 signal, round2 histogram⟩

/-! ## String scanning primitives

The source parses free text with JS regular expressions. The regexes used
are simple enough to model exactly: patterns of a case-insensitive literal
token, optional whitespace and digits or an uppercase-letter run with word
boundaries, always taken at the leftmost matching position.
-/

/-- JS toLowerCase, modelled character by character (the texts involved
are ASCII). Implemented on the character list so that concrete evaluation
reduces inside the kernel. -/
def toLowerStr (s : String) : String := String.mk (s.toList.map Char.toLower)

/-- JS toUpperCase, modelled character by character. -/
def toUpperStr (s : String) : String := String.mk (s.toList.map Char.toUpper)

/-- Case-sensitive prefix test on character lists (hay, then pattern). -/
def startsWithL : List Char → List Char → Bool
  | _, [] => true
  | [], _ :: _ => false
  | h :: t, p :: ps => h = p && startsWithL t ps

/-- JS String.prototype.includes: substring containment. -/
def containsSub : List Char → List Char → Bool
  | [], needle => needle.isEmpty
  | c :: rest, needle => startsWithL (c :: rest) needle || containsSub rest needle

/-- Case-insensitive prefix test on character lists (hay, then pattern). -/
def startsWithCI : List Char → List Char → Bool
  | _, [] => true
  | [], _ :: _ => false
  | h :: t, p :: ps => (h.toLower = p.toLower) && startsWithCI t ps

/-- Consume a case-insensitive literal pattern, returning the rest. -/
def dropCI : List Char → List Char → Option (List Char)
  | hay, [] => some hay
  | [], _ :: _ => none
  | h :: t, p :: ps => if h.toLower = p.toLower then dropCI t ps else none

/-- The JS regex whitespace class, restricted to the ASCII characters
(space, tab, line feed, carriage return, vertical tab, form feed); the
Unicode members are irrelevant to the texts involved. -/
def isJsSpace (c : Char) : Bool :=
  c = ' ' || c = '\t' || c = '\n' || c = '\r' || c.toNat = 11 || c.toNat = 12

/-- The JS regex word class backslash-w: ASCII letters, digits, underscore. -/
def isWordChar (c : Char) : Bool := c.isAlpha || c.isDigit || c = '_'

/-- An ASCII uppercase letter, the regex class A to Z. -/
def isUpperLetter (c : Char) : Bool := 'A' ≤ c && c ≤ 'Z'

/-- Maximal runs of word characters of a text, in order. A 2-to-5
uppercase-letter match with word boundaries on both sides is exactly a
whole such run that consists of 2 to 5 uppercase letters. -/
def wordRuns : List Char → List (List Char)
  | [] => []
  | c :: rest =>
    let rs := wordRuns rest
    if isWordChar c then
      match rest with
      | r :: _ =>
        if isWordChar r then
          match rs with
          | run :: rs2 => (c :: run) :: rs2
          | [] => [[c]]
        else [c] :: rs
      | [] => [[c]]
    else rs

/-- Take a maximal digit run (the regex piece of one or more digits). -/
def takeDigits : List Char → List Char × List Char
  | [] => ([], [])
  | c :: rest =>
    if c.isDigit then
      let (ds, r) := takeDigits rest
      (c :: ds, r)
    else ([], c :: rest)

/-- Value of a digit string. -/
def digitsToNat (ds : List Char) : ℕ :=
  ds.foldl (fun acc c => acc * 10 + (c.toNat - '0'.toNat)) 0

/-- Match digits with an optional dot-digits tail at this position: the
capture of the numeric regex piece, as the integer digits and the fraction
digits (the latter empty when the optional fraction does not match); none
when no digit is present. -/
def numCaptureAt (l : List Char) : Option (List Char × List Char) :=
  let (ds, r) := takeDigits l
  if ds.isEmpty then none
  else
    match r with
    | '.' :: r2 =>
      let (fs, _) := takeDigits r2
      if fs.isEmpty then some (ds, []) else some (ds, fs)
    | _ => some (ds, [])

/-- JS parseFloat of a captured digit string. -/
def parseFloatDigits (ds fs : List Char) : ℚ :=
  (digitsToNat ds : ℚ) + (digitsToNat fs : ℚ) / (10 : ℚ) ^ fs.length

/-! ## Symbol extraction: extractSymbol of the gemini tools module -/

/-- The company-name alias table, in source insertion order. -/
def nameMap : List (String × String) :=
  [("nvidia", "NVDA"), ("apple", "AAPL"), ("tesla", "TSLA"),
   ("microsoft", "MSFT"), ("amazon", "AMZN"), ("google", "GOOGL"),
   ("meta", "META"), ("netflix", "NFLX"), ("amd", "AMD"),
   ("intel", "INTC"), ("facebook", "META")]

/-- Stop words excluded from ticker matching. -/
def excludeWords : List String :=
  ["I", "A", "THE", "AND", "OR", "FOR", "TO", "IN", "IS", "IT", "AI"]

/-- First 2-to-5 uppercase-letter token with word boundaries: the leftmost
match of the ticker regex of extractSymbol. -/
def firstTickerToken (intent : String) : Option String :=
  ((wordRuns intent.toList).find? (fun run =>
      decide (2 ≤ run.length) && decide (run.length ≤ 5) && run.all isUpperLetter)).map
    fun run => String.mk run

/-- extractSymbol from the gemini tools module: alias-table substring check
on the lowercased intent first (insertion order), otherwise the first 2-5
uppercase token unless it is a stop word. Only that single first token is
ever considered. -/
def extractSymbol (intent : String) : Option String :=
  let lowerIntent := toLowerStr intent
  match nameMap.find? (fun p => containsSub lowerIntent.toList p.1.toList) with
  | some p => some p.2
  | none =>
    match firstTickerToken intent with
    | some symbol => if excludeWords.contains symbol then none else some symbol
    | none => none

/-! ## Market data model: the yahoofinance type definitions -/

/-- Moving-average pair of the indicators record. -/
structure MovingAverages where
  ma_50 : ℚ
  ma_200 : ℚ
deriving DecidableEq, Repr

/-- Indicator block of MarketData; the three members are optional in the
source type. -/
structure Indicators where
  rsi : Option ℚ
  macd : Option MACDResult
  moving_averages : Option MovingAverages
deriving DecidableEq, Repr

/-- Price-history block of MarketData. -/
structure PriceHistory where
  daily_high : ℚ
  daily_low : ℚ
  week_52_high : ℚ
  week_52_low : ℚ
deriving DecidableEq, Repr

/-- MarketData from the yahoofinance type definitions. Timestamps are
milliseconds since the epoch. The untyped raw_data payload is modelled
only by whether it is the synthetic mock marker record. -/
structure MarketData where
  symbol : String
  current_price : ℚ
  change_percent : ℚ
  volume : ℚ
  market_cap : Option ℚ
  indicators : Indicators
  price_history : PriceHistory
  raw_mock : Bool
  cached_at : ℚ
  cache_hit : Bool
deriving DecidableEq, Repr

/-! ## MarketDataCache: the mongodb cache collection and the caching layer -/

/-- The processed block stored by setCachedData: exactly current price,
change percent, volume and indicators (price history and market cap are
not stored). -/
structure ProcessedCache where
  current_price : ℚ
  change_percent : ℚ
  volume : ℚ
  indicators : Indicators
deriving DecidableEq, Repr

/-- MarketDataCache document from the mongodb models (the untyped raw data
field is omitted; no claim consults it). -/
structure MarketDataCache where
  symbol : String
  timestamp : ℚ
  source : String
  processed : ProcessedCache
  expires_at : ℚ
deriving DecidableEq, Repr

/-- The 15-minute TTL in milliseconds. -/
def fifteenMinutesMs : ℚ := 15 * 60 * 1000

/-- getCachedMarketData from the mongodb queries: findOne on symbol
uppercased with timestamp at least now minus 15 minutes; a database error
degrades to a miss. The store is the collection in natural (insertion)
order, findOne returning the first match. -/
def getCachedMarketData (symbol : String) (now : ℚ)
    (store : List MarketDataCache) (dbError : Bool) : Option MarketDataCache :=
  if dbError then none
  else
    let fifteenMinutesAgo := now - fifteenMinutesMs
    store.find? (fun e => e.symbol = toUpperStr symbol && decide (fifteenMinutesAgo ≤ e.timestamp))

/-- cacheMarketData from the mongodb queries: insertOne appends a document;
a database error is swallowed (caching is not critical). -/
def cacheMarketData (entry : MarketDataCache) (store : List MarketDataCache)
    (dbError : Bool) : List MarketDataCache :=
  if dbError then store else store ++ [entry]

/-- setCachedData from the yahoofinance caching layer: store symbol
uppercased, the four processed fields and expires_at of now plus 15
minutes. -/
def setCachedData (symbol : String) (now : ℚ) (processedData : MarketData)
    (store : List MarketDataCache) (dbError : Bool) : List MarketDataCache :=
  cacheMarketData
    { symbol := toUpperStr symbol
      timestamp := now
      source := "yahoo_finance"
      processed :=
        { current_price := processedData.current_price
          change_percent := processedData.change_percent
          volume := processedData.volume
          indicators := processedData.indicators }
      expires_at := now + fifteenMinutesMs } store dbError

/-- getCachedData from the yahoofinance caching layer (thin wrapper). -/
def getCachedData (symbol : String) (now : ℚ) (store : List MarketDataCache)
    (dbError : Bool) : Option MarketDataCache :=
  getCachedMarketData symbol now store dbError

/-- Cache-hit reconstruction in getMarketData: the snapshot rebuilt from a
cache entry. Price history is approximated from the cached price by fixed
multiples, and the object literal carries no market_cap. -/
def cachedToMarketData (cached : MarketDataCache) : MarketData :=
  { symbol := cached.symbol
    current_price := cached.processed.current_price
    change_percent := cached.processed.change_percent
    volume := cached.processed.volume
    market_cap := none
    indicators := cached.processed.indicators
    price_history :=
      { daily_high := cached.processed.current_price * 1.02
        daily_low := cached.processed.current_price * 0.98
        week_52_high := cached.processed.current_price * 1.2
        week_52_low := cached.processed.current_price * 0.8 }
    raw_mock := false
    cached_at := cached.timestamp
    cache_hit := true }

/-! ## MarketDataSource: getMarketData of the yahoofinance fetcher -/

/-- The fields of the Yahoo quote payload that getMarketData reads; each is
optional in the raw provider record. -/
structure YahooQuote where
  regularMarketPrice : Option ℚ
  regularMarketPreviousClose : Option ℚ
  regularMarketVolume : Option ℚ
  marketCap : Option ℚ
  regularMarketDayHigh : Option ℚ
  regularMarketDayLow : Option ℚ
  fiftyTwoWeekHigh : Option ℚ
  fiftyTwoWeekLow : Option ℚ
deriving DecidableEq, Repr

/-- The Math.random() draws consumed by getMockMarketData, in source
order: base price, change percent, volume, rsi, and the three MACD
components. -/
structure MockRand where
  r1 : ℚ
  r2 : ℚ
  r3 : ℚ
  r4 : ℚ
  r5 : ℚ
  r6 : ℚ
  r7 : ℚ
deriving DecidableEq, Repr

/-- External world of one getMarketData call: the clock, the cache
collection state, whether the cache database errors, the quote fetch
result (none when the fetch threw or returned null), the historical fetch
result (none when that fetch threw; close values may be missing per row)
and the random draws of the mock path. -/
structure FetchEnv where
  now : ℚ
  store : List MarketDataCache
  cacheDbError : Bool
  quote : Option YahooQuote
  historical : Option (List (Option ℚ))
  rand : MockRand
deriving DecidableEq, Repr

/-- Error type of the spec taxonomy for a failed quote fetch. The embedded
getMarketData never actually produces it: every failure is caught and the
mock snapshot returned instead. -/
inductive MarketError
  | MarketDataUnavailable (msg : String)
deriving DecidableEq, Repr

/-- getMockMarketData from the yahoofinance fetcher: the explicitly-marked
synthetic snapshot built from random draws (raw_data of the mock marker).
The source reads the clock for cached_at; it is passed here as now. -/
def getMockMarketData (symbol : String) (now : ℚ) (rand : MockRand) : MarketData :=
  let basePrice := 100 + rand.r1 * 500
  let changePercent := (rand.r2 - 0.5) * 10
  { symbol := toUpperStr symbol
    current_price := round2 basePrice
    change_percent := round2 changePercent
    volume := ((⌊rand.r3 * 10000000⌋ : ℤ) : ℚ)
    market_cap := none
    indicators :=
      { rsi := some (round2 (rand.r4 * 60 + 20))
        macd := some
          ⟨round2 ((rand.r5 - 0.5) * 10), round2 ((rand.r6 - 0.5) * 8),
           round2 ((rand.r7 - 0.5) * 5)⟩
        moving_averages := some ⟨round2 (basePrice * 0.95), round2 (basePrice * 0.9)⟩ }
    price_history :=
      ⟨round2 (basePrice * 1.02), round2 (basePrice * 0.98),
       round2 (basePrice * 1.3), round2 (basePrice * 0.7)⟩
    raw_mock := true
    cached_at := now
    cache_hit := false }

/-- getMarketData from the yahoofinance fetcher. Returns the snapshot and
the cache collection after the call. The Except layer carries the
MarketDataUnavailable failure the spec demands; the translation shows the
source never produces it: the catch-all returns the mock snapshot on any
failure, with no check of a production or live-trading mode. The
division for change percent is exact rational division (the source would
produce NaN for a zero previous close; no claim touches that point). -/
def getMarketData (symbol : String) (env : FetchEnv) :
    Except MarketError MarketData × List MarketDataCache :=
  let symbolUpper := toUpperStr symbol
  match getCachedData symbolUpper env.now env.store env.cacheDbError with
  | some cached => (Except.ok (cachedToMarketData cached), env.store)
  | none =>
    match env.quote with
    | none =>
      (Except.ok (getMockMarketData symbolUpper env.now env.rand), env.store)
    | some quoteData =>
      let currentPrice := jsOr quoteData.regularMarketPrice 0
      let previousClose := jsOr quoteData.regularMarketPreviousClose currentPrice
      let changePercent := (currentPrice - previousClose) / previousClose * 100
      let closingPrices := (env.historical.getD []).map (fun h => jsOr h 0)
      let rsi := calculateRSI closingPrices 14
      let ma50 := calculateMA closingPrices 50
      let ma200 := calculateMA closingPrices 200
      let macd := calculateMACD closingPrices
      let processedData : MarketData :=
        { symbol := symbolUpper
          current_price := currentPrice
          change_percent := round2 changePercent
          volume := jsOr quoteData.regularMarketVolume 0
          market_cap := quoteData.marketCap
          indicators := ⟨some rsi, some macd, some ⟨ma50, ma200⟩⟩
          price_history :=
            ⟨jsOr quoteData.regularMarketDayHigh currentPrice,
             jsOr quoteData.regularMarketDayLow currentPrice,
             jsOr quoteData.fiftyTwoWeekHigh currentPrice,
             jsOr quoteData.fiftyTwoWeekLow currentPrice⟩
          raw_mock := false
          cached_at := env.now
          cache_hit := false }
      (Except.ok processedData,
       setCachedData symbolUpper env.now processedData env.store env.cacheDbError)

/-! ## AgentOrchestrator: the agent module (Think, Act, Observe loop) -/

/-- Trade action parsed from the reasoning reply. -/
inductive TradeAction
  | BUY
  | SELL
  | HOLD
deriving DecidableEq, Repr

/-- AgentReasoning from the mongodb models (the four structured fields). -/
structure AgentReasoning where
  technical_signals : List String
  trend_analysis : String
  sentiment : String
  risk_factors : List String
deriving DecidableEq, Repr

/-- TradeProposal from the mongodb models. -/
structure TradeProposal where
  action : TradeAction
  symbol : String
  quantity : ℕ
  entry_price : ℚ
  stop_loss : ℚ
  target_price : ℚ
  confidence : ℚ
  holding_window : String
deriving DecidableEq, Repr

/-- The untyped record handed to parseAgentResponse as marketData. The
parser probes it with typeof checks, so each probed field is optional
here. The record the orchestrator actually passes is the market tool
result payload, which carries no symbol key. -/
structure MarketRecord where
  current_price : Option ℚ
  symbol : Option String
  change_percent : Option ℚ
  volume : Option ℚ
  indicators : Option Indicators
  price_history : Option PriceHistory
deriving DecidableEq, Repr

/-- The result record callMarketDataTool builds from a snapshot: current
price, change percent, volume, indicators and price history only; the
symbol is recorded on the ToolCall, not inside the result payload. -/
def marketToolRecord (data : MarketData) : MarketRecord :=
  { current_price := some data.current_price
    symbol := none
    change_percent := some data.change_percent
    volume := some data.volume
    indicators := some data.indicators
    price_history := some data.price_history }

/-- Leftmost match of the action regex: the literal Action with a colon,
optional whitespace, then BUY, SELL or HOLD, all case-insensitive. -/
def findAction : List Char → Option TradeAction
  | [] => none
  | c :: rest =>
    match
      (dropCI (c :: rest) "action:".toList).bind (fun r =>
        let r2 := r.dropWhile isJsSpace
        if startsWithCI r2 "buy".toList then some TradeAction.BUY
        else if startsWithCI r2 "sell".toList then some TradeAction.SELL
        else if startsWithCI r2 "hold".toList then some TradeAction.HOLD
        else none)
    with
    | some a => some a
    | none => findAction rest

/-- Leftmost match of the confidence regex: the literal Confidence with a
colon, optional whitespace, then digits with an optional fraction; the
result is the captured digit strings. -/
def findConfidence : List Char → Option (List Char × List Char)
  | [] => none
  | c :: rest =>
    match
      (dropCI (c :: rest) "confidence:".toList).bind (fun r =>
        numCaptureAt (r.dropWhile isJsSpace))
    with
    | some q => some q
    | none => findConfidence rest

/-- Leftmost match of the quantity regex: the literal Quantity with a
colon, optional whitespace, then digits (parseInt of the digit capture). -/
def findQuantity : List Char → Option ℕ
  | [] => none
  | c :: rest =>
    match
      (dropCI (c :: rest) "quantity:".toList).bind (fun r =>
        let r2 := r.dropWhile isJsSpace
        let (ds, _) := takeDigits r2
        if ds.isEmpty then none else some (digitsToNat ds))
    with
    | some n => some n
    | none => findQuantity rest

/-- Confidence extraction of parseAgentResponse: parseFloat of the first
numeric match after a Confidence token (default 0.5), divided by 100 when
greater than 1. -/
def normalizeConfidence (response : String) : ℚ :=
  let confidence :=
    match findConfidence response.toList with
    | some (ds, fs) => parseFloatDigits ds fs
    | none => 1/2
  if 1 < confidence then confidence / 100 else confidence

/-- parseAgentResponse from the agent module: reasoning copied from the
technicals payload; action, confidence and quantity parsed tolerantly from
the reply; a proposal built only for BUY or SELL with the fixed price
multiples and holding window, entry price defaulting to 100 and symbol to
UNKNOWN when the probed record lacks those fields. -/
def parseAgentResponse (response : String) (marketData : MarketRecord)
    (technicals : AgentReasoning) : AgentReasoning × Option TradeProposal :=
  let reasoning : AgentReasoning :=
    { technical_signals := technicals.technical_signals
      trend_analysis := technicals.trend_analysis
      sentiment := technicals.sentiment
      risk_factors := technicals.risk_factors }
  let action := (findAction response.toList).getD TradeAction.HOLD
  let normalizedConfidence := normalizeConfidence response
  let quantity := (findQuantity response.toList).getD 10
  if action = TradeAction.BUY ∨ action = TradeAction.SELL then
    let currentPrice := marketData.current_price.getD 100
    (reasoning, some
      { action := action
        symbol := marketData.symbol.getD "UNKNOWN"
        quantity := quantity
        entry_price := currentPrice
        stop_loss := if action = TradeAction.BUY then currentPrice * 0.95 else currentPrice * 1.05
        target_price := if action = TradeAction.BUY then currentPrice * 1.1 else currentPrice * 0.9
        confidence := normalizedConfidence
        holding_window := "3-7 days" })
  else (reasoning, none)

/-- Run status of an orchestrator output. -/
inductive RunStatus
  | ANALYZING
  | PROPOSING
  | COMPLETED
  | ERROR
deriving DecidableEq, Repr

/-- Decidable equality for Except values (needed to evaluate concrete
orchestrator runs). -/
instance exceptDecEq {ε α : Type} [DecidableEq ε] [DecidableEq α] :
    DecidableEq (Except ε α) := fun x y =>
  match x, y with
  | Except.ok a, Except.ok b =>
    if h : a = b then isTrue (by rw [h])
    else isFalse (by intro he; cases he; exact h rfl)
  | Except.error a, Except.error b =>
    if h : a = b then isTrue (by rw [h])
    else isFalse (by intro he; cases he; exact h rfl)
  | Except.ok _, Except.error _ => isFalse (by intro he; cases he)
  | Except.error _, Except.ok _ => isFalse (by intro he; cases he)

/-- ToolCall record of the market data tool: the result is either the
payload record or the error record the catch branch builds. -/
structure MarketToolCall where
  symbol : String
  data_source : String
  cache_hit : Bool
  result : Except String MarketRecord
  duration_ms : ℚ
deriving DecidableEq, Repr

/-- ToolCall record of the technicals tool. -/
structure TechToolCall where
  symbol : String
  data_source : String
  cache_hit : Bool
  result : Except String AgentReasoning
  duration_ms : ℚ
deriving DecidableEq, Repr

/-- A recorded tool invocation of either kind. -/
inductive ToolCall
  | market (c : MarketToolCall)
  | technicals (c : TechToolCall)
deriving DecidableEq, Repr

/-- Tool name of a recorded invocation, as the source writes it. -/
def ToolCall.tool : ToolCall → String
  | ToolCall.market _ => "get_market_data"
  | ToolCall.technicals _ => "analyze_technicals"

/-- Orchestrator input (the optional run id and the clock are irrelevant
to every claim and omitted). -/
structure OrchestratorInput where
  userId : String
  userIntent : String
deriving DecidableEq, Repr

/-- External world of one orchestrator run: the awaited results of the two
tool calls and of the reasoning-engine call (error when that call threw). -/
structure OrchestratorEnv where
  marketDataCall : MarketToolCall
  technicalsCall : TechToolCall
  geminiResult : Except String String
deriving DecidableEq, Repr

/-- Raw trace block of an orchestrator output (timing omitted). -/
structure RawTrace where
  user_intent : String
  agent_response : String
  tool_calls : List ToolCall
deriving DecidableEq, Repr

/-- OrchestratorOutput from the gemini type definitions (run id and timing
omitted). -/
structure OrchestratorOutput where
  status : RunStatus
  reasoning : AgentReasoning
  proposal : Option TradeProposal
  evidence_links : List String
  tools_called : List ToolCall
  raw_trace : RawTrace
  error : Option String
deriving DecidableEq, Repr

/-- The empty reasoning block of the error branches. -/
def emptyReasoning : AgentReasoning := ⟨[], "", "", []⟩

/-- The catch branch of runOrchestratorAgent: status ERROR with whatever
tools and evidence were accumulated, an empty reply in the trace and the
captured message. -/
def orchestratorErrorOutput (input : OrchestratorInput)
    (evidenceLinks : List String) (toolsCalled : List ToolCall)
    (message : String) : OrchestratorOutput :=
  { status := RunStatus.ERROR
    reasoning := emptyReasoning
    proposal := none
    evidence_links := evidenceLinks
    tools_called := toolsCalled
    raw_trace := ⟨input.userIntent, "", toolsCalled⟩
    error := some message }

/-- runOrchestratorAgent from the agent module. Step 1 extracts the
symbol, failing fast with no tool invocation; steps 2 and 3 record the two
tool calls and throw on an error result; step 5 obtains the reply; step 6
parses it; the final status is COMPLETED exactly when a proposal was
built, otherwise PROPOSING. -/
def runOrchestratorAgent (input : OrchestratorInput) (env : OrchestratorEnv) :
    OrchestratorOutput :=
  match extractSymbol input.userIntent with
  | none =>
    { status := RunStatus.ERROR
      reasoning := emptyReasoning
      proposal := none
      evidence_links := []
      tools_called := []
      raw_trace :=
        ⟨input.userIntent,
         "Error: Could not identify a stock symbol in your request. Please include a ticker symbol (e.g., NVDA, AAPL).",
         []⟩
      error := some "No symbol found in user intent" }
  | some symbol =>
    let marketDataCall := env.marketDataCall
    let toolsCalled1 := [ToolCall.market marketDataCall]
    let evidenceLinks := ["https://finance.yahoo.com/quote/" ++ symbol]
    match marketDataCall.result with
    | Except.error e =>
      orchestratorErrorOutput input evidenceLinks toolsCalled1
        ("Market data fetch failed: " ++ e)
    | Except.ok marketData =>
      let technicalsCall := env.technicalsCall
      let toolsCalled2 := toolsCalled1 ++ [ToolCall.technicals technicalsCall]
      match technicalsCall.result with
      | Except.error e =>
        orchestratorErrorOutput input evidenceLinks toolsCalled2
          ("Technical analysis failed: " ++ e)
      | Except.ok technicals =>
        match env.geminiResult with
        | Except.error e =>
          orchestratorErrorOutput input evidenceLinks toolsCalled2 e
        | Except.ok agentResponse =>
          let parsed := parseAgentResponse agentResponse marketData technicals
          { status :=
              if parsed.2.isSome then RunStatus.COMPLETED else RunStatus.PROPOSING
            reasoning := parsed.1
            proposal := parsed.2
            evidence_links := evidenceLinks
            tools_called := toolsCalled2
            raw_trace := ⟨input.userIntent, agentResponse, toolsCalled2⟩
            error := none }

/-! ## OrderLifecycle

Modelled from the spec: the repository holds only the OrderStatus enum
(the supabase models) and unconditional CRUD updates; the guarded
transition function of the OrderLifecycle component (spec section 4.6,
InvalidTransition of section 7) is not present under src and is modelled
here from the words of the spec.
-/

/-- OrderStatus from the supabase models. -/
inductive OrderStatus
  | proposed
  | approved
  | submitted
  | filled
  | rejected
  | cancelled
  | failed
deriving DecidableEq, Repr

/-- Modelled from the spec: rejected, cancelled and failed are terminal,
and filled ends the happy path (every legal exit of a non-terminal state
is listed in section 4.6, none leaving filled). -/
def OrderStatus.isTerminal : OrderStatus → Bool
  | OrderStatus.filled => true
  | OrderStatus.rejected => true
  | OrderStatus.cancelled => true
  | OrderStatus.failed => true
  | _ => false

/-- Modelled from the spec: the legal transition edges of section 4.6:
proposed to approved, proposed to rejected, approved to submitted,
submitted to filled, any of the three non-terminal states to cancelled and
any non-terminal state to failed. -/
def allowedTransition : OrderStatus → OrderStatus → Bool
  | OrderStatus.proposed, OrderStatus.approved => true
  | OrderStatus.proposed, OrderStatus.rejected => true
  | OrderStatus.approved, OrderStatus.submitted => true
  | OrderStatus.submitted, OrderStatus.filled => true
  | OrderStatus.proposed, OrderStatus.cancelled => true
  | OrderStatus.approved, OrderStatus.cancelled => true
  | OrderStatus.submitted, OrderStatus.cancelled => true
  | OrderStatus.proposed, OrderStatus.failed => true
  | OrderStatus.approved, OrderStatus.failed => true
  | OrderStatus.submitted, OrderStatus.failed => true
  | _, _ => false

/-- The order fields the lifecycle touches (other columns of the orders
table are irrelevant to the claims). -/
structure Order where
  status : OrderStatus
  approved_by : Option String
  approved_at : Option ℚ
  rejected_reason : Option String
deriving DecidableEq, Repr

/-- Errors of the lifecycle, led by InvalidTransition of the spec error
taxonomy. -/
inductive TransitionError
  | InvalidTransition (fromStatus toStatus : OrderStatus)
  | MissingApprover
  | MissingReason
deriving DecidableEq, Repr

/-- A requested transition with its accompanying data. -/
structure TransitionRequest where
  target : OrderStatus
  approver : Option String
  approvedAt : Option ℚ
  reason : Option String
deriving DecidableEq, Repr

/-- Modelled from the spec: apply one lifecycle transition. An edge not in
the table is rejected with InvalidTransition and the order is returned
unchanged inside no value at all (the error carries no order, so rejection
cannot mutate); approval requires an approver and timestamp, rejection a
reason. -/
def applyTransition (order : Order) (req : TransitionRequest) :
    Except TransitionError Order :=
  if allowedTransition order.status req.target then
    if req.target = OrderStatus.approved ∧
        (req.approver.isNone ∨ req.approvedAt.isNone) then
      Except.error TransitionError.MissingApprover
    else if req.target = OrderStatus.rejected ∧ req.reason.isNone then
      Except.error TransitionError.MissingReason
    else
      Except.ok
        { order with
          status := req.target
          approved_by :=
            if req.target = OrderStatus.approved then req.approver else order.approved_by
          approved_at :=
            if req.target = OrderStatus.approved then req.approvedAt else order.approved_at
          rejected_reason :=
            if req.target = OrderStatus.rejected then req.reason else order.rejected_reason }
  else Except.error (TransitionError.InvalidTransition order.status req.target)

/-! ## General lemmas about the rounding helpers and list scans -/

theorem jsRound_intCast (m : ℤ) : jsRound (m : ℚ) = m := by
  unfold jsRound
  rw [add_comm, Int.floor_add_int, Int.floor_eq_zero_iff.mpr (by constructor <;> norm_num),
    zero_add]

theorem round2_of_div_100 (m : ℤ) : round2 ((m : ℚ) / 100) = (m : ℚ) / 100 := by
  unfold round2
  rw [div_mul_cancel₀ _ (by norm_num : (100 : ℚ) ≠ 0), jsRound_intCast]

theorem round2_sub_round2 (a b : ℚ) :
    round2 (round2 a - round2 b) = round2 a - round2 b := by
  have h : round2 a - round2 b = ((jsRound (a * 100) - jsRound (b * 100) : ℤ) : ℚ) / 100 := by
    unfold round2
    push_cast
    ring
  rw [h, round2_of_div_100]

theorem round2_zero : round2 0 = 0 := by
  have h := round2_of_div_100 0
  simpa using h

theorem jsRound_mono {a b : ℚ} (h : a ≤ b) : jsRound a ≤ jsRound b := by
  unfold jsRound
  exact Int.floor_le_floor (by linarith)

theorem round2_bounds {q : ℚ} (h0 : 0 ≤ q) (h1 : q ≤ 100) :
    0 ≤ round2 q ∧ round2 q ≤ 100 := by
  have hlo : (0 : ℤ) ≤ jsRound (q * 100) := by
    have h2 := jsRound_mono (by linarith : (0 : ℚ) ≤ q * 100)
    have h3 : jsRound ((0 : ℤ) : ℚ) = 0 := jsRound_intCast 0
    simp only [Int.cast_zero] at h3
    omega
  have hhi : jsRound (q * 100) ≤ 10000 := by
    have h2 := jsRound_mono (show q * 100 ≤ ((10000 : ℤ) : ℚ) by push_cast; linarith)
    rwa [jsRound_intCast] at h2
  constructor
  · unfold round2
    exact div_nonneg (by exact_mod_cast hlo) (by norm_num)
  · unfold round2
    rw [div_le_iff₀ (by norm_num : (0 : ℚ) < 100)]
    calc ((jsRound (q * 100) : ℤ) : ℚ) ≤ ((10000 : ℤ) : ℚ) := by exact_mod_cast hhi
      _ = 100 * 100 := by norm_num

theorem priceChanges_length (l : List ℚ) : (priceChanges l).length = l.length - 1 := by
  induction l with
  | nil => rfl
  | cons a t ih =>
    cases t with
    | nil => rfl
    | cons b rest =>
      have h : priceChanges (a :: b :: rest) = (b - a) :: priceChanges (b :: rest) := rfl
      rw [h]
      simp only [List.length_cons]
      rw [ih]
      simp

theorem priceChanges_pos (l : List ℚ) (h : List.Chain' (· < ·) l) :
    ∀ c ∈ priceChanges l, 0 < c := by
  induction l with
  | nil => intro c hc; simp [priceChanges] at hc
  | cons a t ih =>
    cases t with
    | nil => intro c hc; simp [priceChanges] at hc
    | cons b rest =>
      rw [List.chain'_cons] at h
      intro c hc
      have heq : priceChanges (a :: b :: rest) = (b - a) :: priceChanges (b :: rest) := rfl
      rw [heq, List.mem_cons] at hc
      rcases hc with hc | hc
      · rw [hc]; linarith [h.1]
      · exact ih h.2 c hc

theorem priceChanges_neg (l : List ℚ) (h : List.Chain' (· > ·) l) :
    ∀ c ∈ priceChanges l, c < 0 := by
  induction l with
  | nil => intro c hc; simp [priceChanges] at hc
  | cons a t ih =>
    cases t with
    | nil => intro c hc; simp [priceChanges] at hc
    | cons b rest =>
      rw [List.chain'_cons] at h
      intro c hc
      have heq : priceChanges (a :: b :: rest) = (b - a) :: priceChanges (b :: rest) := rfl
      rw [heq, List.mem_cons] at hc
      rcases hc with hc | hc
      · rw [hc]; have := h.1; simp only [gt_iff_lt] at this; linarith
      · exact ih h.2 c hc

theorem sliceLast_mem {n : ℕ} {l : List ℚ} {x : ℚ} (h : x ∈ sliceLast n l) : x ∈ l :=
  List.drop_subset _ _ h

theorem sliceLast_length_of_le {n : ℕ} {l : List ℚ} (h : n ≤ l.length) :
    (sliceLast n l).length = n := by
  unfold sliceLast
  rw [List.length_drop]
  omega

theorem rsiGains_mem_nonneg {cs : List ℚ} {x : ℚ} (h : x ∈ rsiGains cs) : 0 ≤ x := by
  unfold rsiGains at h
  rw [List.mem_map] at h
  obtain ⟨c, _, rfl⟩ := h
  split
  · linarith
  · norm_num

theorem rsiLosses_mem_nonneg {cs : List ℚ} {x : ℚ} (h : x ∈ rsiLosses cs) : 0 ≤ x := by
  unfold rsiLosses at h
  rw [List.mem_map] at h
  obtain ⟨c, _, rfl⟩ := h
  split
  · exact abs_nonneg _
  · exact le_refl 0

theorem find?_append_of_none {α : Type} (p : α → Bool) (l1 l2 : List α)
    (h : ∀ x ∈ l1, p x = false) : (l1 ++ l2).find? p = l2.find? p := by
  induction l1 with
  | nil => simp
  | cons a t ih =>
    have ha : p a = false := h a (by simp)
    simp only [List.cons_append, List.find?]
    rw [ha]
    exact ih (fun x hx => h x (by simp [hx]))

theorem calculateRSI_of_lt (prices : List ℚ) (h : prices.length < 15) :
    calculateRSI prices 14 = 50 := by
  unfold calculateRSI
  rw [if_pos (by omega)]

theorem calculateRSI_of_ge (prices : List ℚ) (h : 15 ≤ prices.length) :
    calculateRSI prices 14 =
      if avgLoss prices 14 = 0 then 100
      else round2 (100 - 100 / (1 + avgGain prices 14 / avgLoss prices 14)) := by
  unfold calculateRSI
  rw [if_neg (by omega)]

theorem calculateMA_of_le (prices : List ℚ) (period : ℕ) (h : period ≤ prices.length) :
    calculateMA prices period = round2 ((sliceLast period prices).sum / (period : ℕ)) := by
  unfold calculateMA
  rw [if_neg (by omega)]

/-! ## Shared concrete fixtures for witnesses and counterexamples -/

/-- A fixed technicals payload used by concrete runs. -/
def tech0 : AgentReasoning :=
  ⟨["RSI neutral at 55.0"], "Sideways/neutral trend - mixed signals",
   "Neutral - stable price action", ["Standard market risk - normal volatility"]⟩

/-- The cached NVDA snapshot of the end-to-end example: current price
485.23, served from cache. -/
def nvdaMd : MarketData :=
  { symbol := "NVDA"
    current_price := 485.23
    change_percent := 1.2
    volume := 2000000
    market_cap := some 2000000000
    indicators := ⟨some 55, some ⟨1, 1, 0⟩, some ⟨480, 450⟩⟩
    price_history := ⟨500, 470, 520, 300⟩
    raw_mock := false
    cached_at := 0
    cache_hit := true }

/-- The reasoning reply of the end-to-end example. -/
def replyBuy : String := "Action: BUY ... Confidence: 78 ... Quantity: 10"

/-- Orchestrator environment of the end-to-end example: both tools succeed
on the cached NVDA snapshot and the engine replies with the BUY text. -/
def envBuy : OrchestratorEnv :=
  { marketDataCall := ⟨"NVDA", "yahoo_finance", true, Except.ok (marketToolRecord nvdaMd), 5⟩
    technicalsCall := ⟨"NVDA", "yahoo_finance", true, Except.ok tech0, 5⟩
    geminiResult := Except.ok replyBuy }

/-- Same environment with a HOLD reply. -/
def envHold : OrchestratorEnv :=
  { envBuy with geminiResult := Except.ok "Action: HOLD because conditions are mixed" }

/-- The proposal the code actually builds in the end-to-end example. -/
def builtNvdaProposal : TradeProposal :=
  ⟨TradeAction.BUY, "UNKNOWN", 10, 485.23, 460.9685, 533.753, 0.78, "3-7 days"⟩

/-- The proposal the claim asserts for the end-to-end example. -/
def claimedNvdaProposal : TradeProposal :=
  ⟨TradeAction.BUY, "NVDA", 10, 485.23, 460.97, 533.75, 0.78, "3-7 days"⟩

/-- The probed market record with no fields at all. -/
def mdRecEmpty : MarketRecord := ⟨none, none, none, none, none, none⟩

/-- An environment whose calls all fail (used where the environment is
irrelevant). -/
def envErr : OrchestratorEnv :=
  { marketDataCall := ⟨"", "yahoo_finance", false, Except.error "boom", 0⟩
    technicalsCall := ⟨"", "yahoo_finance", false, Except.error "boom", 0⟩
    geminiResult := Except.error "boom" }

/-- Fixed random draws for the mock path. -/
def rand0 : MockRand := ⟨1/2, 1/2, 1/2, 1/2, 1/2, 1/2, 1/2⟩

/-- Fetch environment of the failed-quote scenario: empty cache, healthy
cache database, quote fetch failed, history fetch failed. -/
def envQuoteFail : FetchEnv := ⟨1700000000000, [], false, none, none, rand0⟩

/-- Snapshot stored in the cache round-trip counterexample: it carries a
market cap and a daily high that is not 1.02 times the price. -/
def s4 : MarketData :=
  { symbol := "NVDA"
    current_price := 485.23
    change_percent := 1.2
    volume := 2000000
    market_cap := some 2000000000
    indicators := ⟨some 55, some ⟨1, 1, 0⟩, some ⟨480, 450⟩⟩
    price_history := ⟨500, 470, 520, 300⟩
    raw_mock := false
    cached_at := 0
    cache_hit := false }

/-- The cache entry that storing s4 at time 0 produces. -/
def e4 : MarketDataCache :=
  ⟨"NVDA", 0, "yahoo_finance",
   ⟨s4.current_price, s4.change_percent, s4.volume, s4.indicators⟩,
   0 + fifteenMinutesMs⟩

/-- get after put, fresh case: with no prior entry for the symbol, a get
within the TTL window returns exactly the entry the put stored. -/
theorem getCached_after_set_fresh (symbol : String) (snapshot : MarketData)
    (t0 tget : ℚ) (store : List MarketDataCache)
    (hstore : ∀ e ∈ store, e.symbol ≠ toUpperStr symbol)
    (hfresh : tget - t0 ≤ fifteenMinutesMs) :
    getCachedMarketData symbol tget (setCachedData symbol t0 snapshot store false) false =
      some ⟨toUpperStr symbol, t0, "yahoo_finance",
            ⟨snapshot.current_price, snapshot.change_percent, snapshot.volume,
             snapshot.indicators⟩, t0 + fifteenMinutesMs⟩ := by
  have hpred : ∀ e ∈ store,
      (decide (e.symbol = toUpperStr symbol) &&
        decide (tget - fifteenMinutesMs ≤ e.timestamp)) = false := by
    intro e he
    simp [hstore e he]
  unfold getCachedMarketData setCachedData cacheMarketData
  simp only [Bool.false_eq_true, if_false]
  rw [find?_append_of_none _ _ _ hpred]
  have hts : decide (tget - fifteenMinutesMs ≤ t0) = true := decide_eq_true (by linarith)
  have hts2 : decide (tget ≤ t0 + fifteenMinutesMs) = true := decide_eq_true (by linarith)
  simp [List.find?, hts, hts2]

/-- get after put, stale case: strictly after the TTL window the stored
entry is not served. -/
theorem getCached_after_set_stale (symbol : String) (snapshot : MarketData)
    (t0 tget : ℚ) (store : List MarketDataCache)
    (hstore : ∀ e ∈ store, e.symbol ≠ toUpperStr symbol)
    (hstale : fifteenMinutesMs < tget - t0) :
    getCachedMarketData symbol tget (setCachedData symbol t0 snapshot store false) false =
      none := by
  have hpred : ∀ e ∈ store,
      (decide (e.symbol = toUpperStr symbol) &&
        decide (tget - fifteenMinutesMs ≤ e.timestamp)) = false := by
    intro e he
    simp [hstore e he]
  unfold getCachedMarketData setCachedData cacheMarketData
  simp only [Bool.false_eq_true, if_false]
  rw [find?_append_of_none _ _ _ hpred]
  have hts : decide (tget - fifteenMinutesMs ≤ t0) = false :=
    decide_eq_false (by linarith)
  have hts2 : decide (tget ≤ t0 + fifteenMinutesMs) = false :=
    decide_eq_false (by linarith)
  simp [List.find?, hts, hts2]

/-! ## Claim C2: terminal order states reject every transition -/

/-- C2: every attempted OrderLifecycle transition out of a terminal state
(filled, rejected, cancelled or failed) is rejected with InvalidTransition
and produces no mutated order; approved to proposed is rejected with
InvalidTransition; and the only state with a legal edge into filled is
submitted. -/
theorem c2_terminal_states_reject_transitions :
    (∀ (order : Order) (req : TransitionRequest), order.status.isTerminal = true →
        applyTransition order req =
          Except.error (TransitionError.InvalidTransition order.status req.target)) ∧
    (∀ (order : Order) (req : TransitionRequest), order.status = OrderStatus.approved →
        req.target = OrderStatus.proposed →
        applyTransition order req =
          Except.error
            (TransitionError.InvalidTransition OrderStatus.approved OrderStatus.proposed)) ∧
    (∀ s : OrderStatus, allowedTransition s OrderStatus.filled = true →
        s = OrderStatus.submitted) := by
  refine ⟨?_, ?_, ?_⟩
  · intro order req h
    have hfalse : allowedTransition order.status req.target = false := by
      cases h1 : order.status <;> cases h2 : req.target <;>
        simp_all [OrderStatus.isTerminal, allowedTransition]
    simp [applyTransition, hfalse]
  · intro order req h1 h2
    simp [applyTransition, h1, h2, allowedTransition]
  · intro s h
    cases s <;> simp_all [allowedTransition]

/-- Witness for C2 at concrete inputs: a filled order rejects a move to
cancelled, an approved order rejects a move back to proposed, and the edge
into filled departs from submitted. -/
theorem c2_terminal_states_reject_transitions_witness :
    applyTransition ⟨OrderStatus.filled, none, none, none⟩
        ⟨OrderStatus.cancelled, none, none, none⟩ =
      Except.error
        (TransitionError.InvalidTransition OrderStatus.filled OrderStatus.cancelled) ∧
    applyTransition ⟨OrderStatus.approved, some "approver-1", some 0, none⟩
        ⟨OrderStatus.proposed, none, none, none⟩ =
      Except.error
        (TransitionError.InvalidTransition OrderStatus.approved OrderStatus.proposed) ∧
    OrderStatus.submitted = OrderStatus.submitted :=
  ⟨c2_terminal_states_reject_transitions.1
      ⟨OrderStatus.filled, none, none, none⟩ ⟨OrderStatus.cancelled, none, none, none⟩
      (by decide),
   c2_terminal_states_reject_transitions.2.1
      ⟨OrderStatus.approved, some "approver-1", some 0, none⟩
      ⟨OrderStatus.proposed, none, none, none⟩ rfl rfl,
   c2_terminal_states_reject_transitions.2.2 OrderStatus.submitted (by decide)⟩

/-! ## Claim C9: the MACD simplification -/

/-- C9: MACD of a series shorter than 26 samples is all zero; with at
least 26 samples the value is SMA(12) minus SMA(26), the signal equals the
value, and the histogram is their difference, hence zero on every input. -/
theorem c9_macd_simplification :
    (∀ prices : List ℚ, prices.length < 26 → calculateMACD prices = ⟨0, 0, 0⟩) ∧
    (∀ prices : List ℚ, 26 ≤ prices.length →
        calculateMACD prices =
          ⟨calculateMA prices 12 - calculateMA prices 26,
           calculateMA prices 12 - calculateMA prices 26, 0⟩) ∧
    (∀ prices : List ℚ, (calculateMACD prices).histogram = 0) := by
  have hlong : ∀ prices : List ℚ, 26 ≤ prices.length →
      calculateMACD prices =
        ⟨calculateMA prices 12 - calculateMA prices 26,
         calculateMA prices 12 - calculateMA prices 26, 0⟩ := by
    intro prices h
    unfold calculateMACD
    rw [if_neg (by omega)]
    have h12 := calculateMA_of_le prices 12 (by omega)
    have h26 := calculateMA_of_le prices 26 (by omega)
    have hval : round2 (calculateMA prices 12 - calculateMA prices 26) =
        calculateMA prices 12 - calculateMA prices 26 := by
      rw [h12, h26]
      exact round2_sub_round2 _ _
    show (⟨round2 (calculateMA prices 12 - calculateMA prices 26),
           round2 (calculateMA prices 12 - calculateMA prices 26),
           round2 (calculateMA prices 12 - calculateMA prices 26 -
             (calculateMA prices 12 - calculateMA prices 26))⟩ : MACDResult) = _
    rw [sub_self, round2_zero, hval]
  refine ⟨?_, hlong, ?_⟩
  · intro prices h
    unfold calculateMACD
    rw [if_pos h]
  · intro prices
    by_cases h : prices.length < 26
    · unfold calculateMACD
      rw [if_pos h]
    · rw [hlong prices (by omega)]

/-- Witness for C9 at concrete inputs: a 3-sample series gives all zeros,
and a 26-sample series satisfies the SMA difference form. -/
theorem c9_macd_simplification_witness :
    calculateMACD [1, 2, 3] = ⟨0, 0, 0⟩ ∧
    calculateMACD (List.replicate 26 (1 : ℚ)) =
      ⟨calculateMA (List.replicate 26 (1 : ℚ)) 12 -
         calculateMA (List.replicate 26 (1 : ℚ)) 26,
       calculateMA (List.replicate 26 (1 : ℚ)) 12 -
         calculateMA (List.replicate 26 (1 : ℚ)) 26, 0⟩ :=
  ⟨c9_macd_simplification.1 [1, 2, 3] (by decide),
   c9_macd_simplification.2.1 (List.replicate 26 (1 : ℚ)) (by decide)⟩

/-! ## Claim C6: unidentified symbol fails fast with zero tool calls -/

/-- C6: whenever symbol extraction finds nothing, the run ends immediately
in ERROR with the no-symbol message, an empty tools_called list and in
particular zero get_market_data invocations; and the intent of the example
(I think the market is nice today) extracts no symbol. -/
theorem c6_no_symbol_fails_fast :
    (∀ (input : OrchestratorInput) (env : OrchestratorEnv),
        extractSymbol input.userIntent = none →
        (runOrchestratorAgent input env).status = RunStatus.ERROR ∧
        (runOrchestratorAgent input env).tools_called = [] ∧
        (runOrchestratorAgent input env).error = some "No symbol found in user intent" ∧
        ((runOrchestratorAgent input env).tools_called.filter
            (fun t => t.tool == "get_market_data")).length = 0) ∧
    extractSymbol "I think the market is nice today" = none := by
  refine ⟨?_, by decide⟩
  intro input env h
  simp [runOrchestratorAgent, h]

/-- Witness for C6: the example intent run against an arbitrary fixed
environment. -/
theorem c6_no_symbol_fails_fast_witness :
    (runOrchestratorAgent ⟨"user-1", "I think the market is nice today"⟩ envErr).status =
        RunStatus.ERROR ∧
    (runOrchestratorAgent ⟨"user-1", "I think the market is nice today"⟩ envErr).tools_called =
        [] ∧
    (runOrchestratorAgent ⟨"user-1", "I think the market is nice today"⟩ envErr).error =
        some "No symbol found in user intent" ∧
    ((runOrchestratorAgent ⟨"user-1", "I think the market is nice today"⟩
          envErr).tools_called.filter (fun t => t.tool == "get_market_data")).length = 0 :=
  c6_no_symbol_fails_fast.1 ⟨"user-1", "I think the market is nice today"⟩ envErr (by decide)

/-! ## Claim C10: only the first uppercase token is ever considered -/

/-- C10: with no alias-table match, extraction inspects only the first
2-to-5 uppercase token; when that token is a stop word the result is none
even if a valid ticker occurs later, as in the example text, whose first
token is AI while NVDA appears afterwards. -/
theorem c10_first_token_only :
    (∀ intent : String,
        (∀ p ∈ nameMap, containsSub (toLowerStr intent).toList p.1.toList = false) →
        ∀ t : String, firstTickerToken intent = some t →
        excludeWords.contains t = true →
        extractSymbol intent = none) ∧
    extractSymbol "Is AI better than NVDA?" = none ∧
    firstTickerToken "Is AI better than NVDA?" = some "AI" ∧
    containsSub "Is AI better than NVDA?".toList "NVDA".toList = true := by
  refine ⟨?_, by decide, by decide, by decide⟩
  intro intent hname t ht hex
  have hmem : t ∈ excludeWords := by simpa using hex
  have hfind :
      nameMap.find? (fun p => containsSub (toLowerStr intent).data p.1.data) = none := by
    rw [List.find?_eq_none]
    intro p hp
    have h2 := hname p hp
    simpa [String.toList] using h2
  simp [extractSymbol, hfind, ht, hmem]

/-- Witness for C10: the example text, with the alias-table hypothesis and
first-token hypotheses discharged by evaluation. -/
theorem c10_first_token_only_witness :
    extractSymbol "Is AI better than NVDA?" = none :=
  c10_first_token_only.1 "Is AI better than NVDA?" (by decide) "AI" (by decide) (by decide)

/-! ## Claim C7: confidence parsing and normalization -/

/-- C7: the confidence carried by every built proposal is the first
numeric match after a Confidence token, divided by 100 when above 1
(default 0.5 with no match); in particular a reply with Confidence: 78
normalizes to 0.78, one with Confidence: 0.42 stays 0.42, and only the
first match counts. -/
theorem c7_confidence_normalized :
    (∀ (response : String) (md : MarketRecord) (tech : AgentReasoning)
        (p : TradeProposal),
        (parseAgentResponse response md tech).2 = some p →
        p.confidence = normalizeConfidence response) ∧
    (∀ (response : String) (ds fs : List Char),
        findConfidence response.toList = some (ds, fs) →
        normalizeConfidence response =
          if 1 < parseFloatDigits ds fs then parseFloatDigits ds fs / 100
          else parseFloatDigits ds fs) ∧
    normalizeConfidence "Confidence: 78" = 0.78 ∧
    normalizeConfidence "Confidence: 0.42" = 0.42 ∧
    normalizeConfidence "Confidence: 78 and later Confidence: 0.42" = 0.78 := by
  have hval : ∀ (response : String) (ds fs : List Char),
      findConfidence response.toList = some (ds, fs) →
      normalizeConfidence response =
        if 1 < parseFloatDigits ds fs then parseFloatDigits ds fs / 100
        else parseFloatDigits ds fs := by
    intro response ds fs h
    unfold normalizeConfidence
    rw [h]
  have h78 : findConfidence "Confidence: 78".toList = some (['7', '8'], []) := by decide
  have h42 : findConfidence "Confidence: 0.42".toList = some (['0'], ['4', '2']) := by
    decide
  have hfirst :
      findConfidence "Confidence: 78 and later Confidence: 0.42".toList =
        some (['7', '8'], []) := by decide
  have hq78 : parseFloatDigits ['7', '8'] [] = 78 := by
    have hd : digitsToNat ['7', '8'] = 78 := by decide
    have hd2 : digitsToNat ([] : List Char) = 0 := rfl
    rw [parseFloatDigits, hd, hd2]
    norm_num
  have hq42 : parseFloatDigits ['0'] ['4', '2'] = 0.42 := by
    have hd : digitsToNat ['4', '2'] = 42 := by decide
    have hd0 : digitsToNat ['0'] = 0 := by decide
    rw [parseFloatDigits, hd, hd0]
    norm_num
  refine ⟨?_, hval, ?_, ?_, ?_⟩
  · intro response md tech p h
    simp only [parseAgentResponse] at h
    rw [apply_ite Prod.snd] at h
    dsimp only at h
    split at h
    · rw [Option.some.injEq] at h
      rw [← h]
    · exact absurd h (by simp)
  · rw [hval _ _ _ h78, hq78]
    norm_num
  · rw [hval _ _ _ h42, hq42]
    norm_num
  · rw [hval _ _ _ hfirst, hq78]
    norm_num

/-- The proposal parseAgentResponse builds in the C7 witness run, written
in the arithmetic form the code produces. -/
def c7Prop : TradeProposal :=
  ⟨TradeAction.BUY, "UNKNOWN", 10, 100, 100 * 0.95, 100 * 1.1,
   normalizeConfidence "Action: BUY Confidence: 78", "3-7 days"⟩

/-- Witness for C7: the BUY reply with Confidence: 78 produces a proposal
and its confidence is the normalized first match. -/
theorem c7_confidence_normalized_witness :
    (parseAgentResponse "Action: BUY Confidence: 78" mdRecEmpty tech0).2 =
      some c7Prop ∧
    c7Prop.confidence = normalizeConfidence "Action: BUY Confidence: 78" := by
  have hEq :
      (parseAgentResponse "Action: BUY Confidence: 78" mdRecEmpty tech0).2 =
        some c7Prop := by rfl
  exact ⟨hEq,
    c7_confidence_normalized.1 "Action: BUY Confidence: 78" mdRecEmpty tech0 c7Prop hEq⟩

/-! ## Claim C1: a HOLD reply and the terminal status -/

/-- C1 counterexample: a concrete run whose tools succeed and whose reply
parses to HOLD ends with status PROPOSING and no proposal; contrary to the
claim, the status is not COMPLETED. -/
theorem c1_counterexample :
    (runOrchestratorAgent ⟨"user-1", "Should I buy NVDA?"⟩ envHold).status =
        RunStatus.PROPOSING ∧
    (runOrchestratorAgent ⟨"user-1", "Should I buy NVDA?"⟩ envHold).proposal = none ∧
    (runOrchestratorAgent ⟨"user-1", "Should I buy NVDA?"⟩ envHold).status ≠
        RunStatus.COMPLETED := by
  refine ⟨by decide, by decide, by decide⟩

/-- C1 as amended: every run that reaches the reasoning engine and whose
reply parses to HOLD (including the default when no Action token is found)
ends with status PROPOSING and no TradeProposal; it is never ERROR and
never COMPLETED. -/
theorem c1_hold_ends_proposing :
    ∀ (input : OrchestratorInput) (env : OrchestratorEnv) (s : String)
      (md : MarketRecord) (tech : AgentReasoning) (reply : String),
      extractSymbol input.userIntent = some s →
      env.marketDataCall.result = Except.ok md →
      env.technicalsCall.result = Except.ok tech →
      env.geminiResult = Except.ok reply →
      (findAction reply.toList = some TradeAction.HOLD ∨ findAction reply.toList = none) →
      (runOrchestratorAgent input env).status = RunStatus.PROPOSING ∧
      (runOrchestratorAgent input env).proposal = none ∧
      (runOrchestratorAgent input env).status ≠ RunStatus.ERROR ∧
      (runOrchestratorAgent input env).status ≠ RunStatus.COMPLETED := by
  intro input env s md tech reply h1 h2 h3 h4 h5
  have h5d : findAction reply.data = some TradeAction.HOLD ∨ findAction reply.data = none := h5
  have hnone : (parseAgentResponse reply md tech).2 = none := by
    simp only [parseAgentResponse]
    rcases h5d with h5d | h5d <;> simp [h5d]
  refine ⟨?_, ?_, ?_, ?_⟩ <;>
    simp [runOrchestratorAgent, h1, h2, h3, h4, hnone]

/-- Witness for C1 at the concrete HOLD run. -/
theorem c1_hold_ends_proposing_witness :
    (runOrchestratorAgent ⟨"user-1", "Should I buy NVDA?"⟩ envHold).status =
        RunStatus.PROPOSING ∧
    (runOrchestratorAgent ⟨"user-1", "Should I buy NVDA?"⟩ envHold).proposal = none ∧
    (runOrchestratorAgent ⟨"user-1", "Should I buy NVDA?"⟩ envHold).status ≠
        RunStatus.ERROR ∧
    (runOrchestratorAgent ⟨"user-1", "Should I buy NVDA?"⟩ envHold).status ≠
        RunStatus.COMPLETED :=
  c1_hold_ends_proposing ⟨"user-1", "Should I buy NVDA?"⟩ envHold "NVDA"
    (marketToolRecord nvdaMd) tech0 "Action: HOLD because conditions are mixed"
    (by decide) rfl rfl rfl (Or.inl (by decide))

/-! ## Claim C4: the cache round trip and the TTL -/

/-- C4 counterexample: a put followed by an immediate get returns the
stored entry, but the snapshot reconstructed from it is not equal to the
snapshot stored: its market_cap is gone (while the stored snapshot carried
one); moreover at now equal to expires_at exactly, the entry is still
served, not missed. -/
theorem c4_counterexample :
    getCachedMarketData "NVDA" 0 (setCachedData "NVDA" 0 s4 [] false) false = some e4 ∧
    cachedToMarketData e4 ≠ s4 ∧
    (cachedToMarketData e4).market_cap = none ∧
    s4.market_cap = some 2000000000 ∧
    getCachedMarketData "NVDA" (0 + fifteenMinutesMs)
        (setCachedData "NVDA" 0 s4 [] false) false = some e4 := by
  have hup : toUpperStr "NVDA" = "NVDA" := by decide
  have h1 := getCached_after_set_fresh "NVDA" s4 0 0 [] (by simp)
    (by norm_num [fifteenMinutesMs])
  rw [hup] at h1
  have h2 := getCached_after_set_fresh "NVDA" s4 0 (0 + fifteenMinutesMs) [] (by simp)
    (by norm_num)
  rw [hup] at h2
  refine ⟨by rw [h1]; rfl, ?_, rfl, rfl, by rw [h2]; rfl⟩
  intro hcontra
  have hmc : (cachedToMarketData e4).market_cap = s4.market_cap := by rw [hcontra]
  simp [cachedToMarketData, e4, s4] at hmc

/-- C4 as amended: for a symbol with no other cache entry, a get within
the TTL window (including the boundary instant now equal to expires_at)
returns the entry the put stored, whose processed block holds exactly the
stored current price, change percent, volume and indicators; the snapshot
reconstructed on a cache hit carries those four fields but no market_cap,
and its price history is rebuilt as fixed multiples of the cached price;
a get strictly after expires_at reports a miss. -/
theorem c4_cache_ttl :
    ∀ (symbol : String) (snapshot : MarketData) (t0 tget : ℚ)
      (store : List MarketDataCache),
      (∀ e ∈ store, e.symbol ≠ toUpperStr symbol) →
      (tget - t0 ≤ fifteenMinutesMs →
        getCachedMarketData symbol tget (setCachedData symbol t0 snapshot store false)
            false =
          some ⟨toUpperStr symbol, t0, "yahoo_finance",
                ⟨snapshot.current_price, snapshot.change_percent, snapshot.volume,
                 snapshot.indicators⟩, t0 + fifteenMinutesMs⟩) ∧
      (fifteenMinutesMs < tget - t0 →
        getCachedMarketData symbol tget (setCachedData symbol t0 snapshot store false)
            false = none) ∧
      (cachedToMarketData ⟨toUpperStr symbol, t0, "yahoo_finance",
          ⟨snapshot.current_price, snapshot.change_percent, snapshot.volume,
           snapshot.indicators⟩, t0 + fifteenMinutesMs⟩).current_price =
        snapshot.current_price ∧
      (cachedToMarketData ⟨toUpperStr symbol, t0, "yahoo_finance",
          ⟨snapshot.current_price, snapshot.change_percent, snapshot.volume,
           snapshot.indicators⟩, t0 + fifteenMinutesMs⟩).change_percent =
        snapshot.change_percent ∧
      (cachedToMarketData ⟨toUpperStr symbol, t0, "yahoo_finance",
          ⟨snapshot.current_price, snapshot.change_percent, snapshot.volume,
           snapshot.indicators⟩, t0 + fifteenMinutesMs⟩).volume = snapshot.volume ∧
      (cachedToMarketData ⟨toUpperStr symbol, t0, "yahoo_finance",
          ⟨snapshot.current_price, snapshot.change_percent, snapshot.volume,
           snapshot.indicators⟩, t0 + fifteenMinutesMs⟩).indicators =
        snapshot.indicators ∧
      (cachedToMarketData ⟨toUpperStr symbol, t0, "yahoo_finance",
          ⟨snapshot.current_price, snapshot.change_percent, snapshot.volume,
           snapshot.indicators⟩, t0 + fifteenMinutesMs⟩).market_cap = none ∧
      (cachedToMarketData ⟨toUpperStr symbol, t0, "yahoo_finance",
          ⟨snapshot.current_price, snapshot.change_percent, snapshot.volume,
           snapshot.indicators⟩, t0 + fifteenMinutesMs⟩).price_history =
        ⟨snapshot.current_price * 1.02, snapshot.current_price * 0.98,
         snapshot.current_price * 1.2, snapshot.current_price * 0.8⟩ := by
  intro symbol snapshot t0 tget store hstore
  refine ⟨fun hfresh => getCached_after_set_fresh symbol snapshot t0 tget store hstore hfresh,
    fun hstale => getCached_after_set_stale symbol snapshot t0 tget store hstore hstale,
    rfl, rfl, rfl, rfl, rfl, rfl⟩

/-- Witness for C4 at concrete inputs: put at time 0, fresh get one minute
later, stale get one hour later. -/
theorem c4_cache_ttl_witness :
    getCachedMarketData "NVDA" 60000 (setCachedData "NVDA" 0 s4 [] false) false =
      some ⟨toUpperStr "NVDA", 0, "yahoo_finance",
            ⟨s4.current_price, s4.change_percent, s4.volume, s4.indicators⟩,
            0 + fifteenMinutesMs⟩ ∧
    getCachedMarketData "NVDA" 3600000 (setCachedData "NVDA" 0 s4 [] false) false =
      none :=
  ⟨((c4_cache_ttl "NVDA" s4 0 60000 [] (by simp)).1
      (by norm_num [fifteenMinutesMs])),
   ((c4_cache_ttl "NVDA" s4 0 3600000 [] (by simp)).2.1
      (by norm_num [fifteenMinutesMs]))⟩

/-! ## Claim C3: a failed quote fetch and the synthetic fallback -/

/-- C3 counterexample: with an empty cache and a failed quote fetch,
getMarketData does not fail with MarketDataUnavailable; it returns the
explicitly-marked synthetic mock snapshot, with no check of any
production or live-trading mode. -/
theorem c3_counterexample :
    (getMarketData "NVDA" envQuoteFail).1 =
      Except.ok (getMockMarketData "NVDA" 1700000000000 rand0) ∧
    (getMockMarketData "NVDA" 1700000000000 rand0).raw_mock = true ∧
    (getMarketData "NVDA" envQuoteFail).1 ≠
      Except.error
        (MarketError.MarketDataUnavailable "Unable to fetch data for symbol: NVDA") := by
  have hup : toUpperStr "NVDA" = "NVDA" := by decide
  refine ⟨?_, rfl, ?_⟩
  · simp [getMarketData, envQuoteFail, getCachedData, getCachedMarketData, hup]
  · simp [getMarketData, envQuoteFail, getCachedData, getCachedMarketData]

/-- C3 as amended: when the cache misses and the external quote fetch
fails, getMarketData does not fail hard: it returns the synthetic mock
snapshot (whose raw payload carries the mock marker) unconditionally, in
every mode; indeed getMarketData never surfaces an error at all. -/
theorem c3_quote_failure_returns_mock :
    (∀ (symbol : String) (env : FetchEnv),
        getCachedData (toUpperStr symbol) env.now env.store env.cacheDbError = none →
        env.quote = none →
        (getMarketData symbol env).1 =
          Except.ok (getMockMarketData (toUpperStr symbol) env.now env.rand) ∧
        (getMockMarketData (toUpperStr symbol) env.now env.rand).raw_mock = true) ∧
    (∀ (symbol : String) (env : FetchEnv) (e : MarketError),
        (getMarketData symbol env).1 ≠ Except.error e) := by
  constructor
  · intro symbol env hcache hquote
    refine ⟨?_, rfl⟩
    simp [getMarketData, hcache, hquote]
  · intro symbol env e
    simp only [getMarketData]
    split
    · simp
    · split
      · simp
      · simp

/-- Witness for C3 at the concrete failed-quote environment. -/
theorem c3_quote_failure_returns_mock_witness :
    (getMarketData "NVDA" envQuoteFail).1 =
      Except.ok (getMockMarketData (toUpperStr "NVDA") envQuoteFail.now envQuoteFail.rand) ∧
    (getMockMarketData (toUpperStr "NVDA") envQuoteFail.now envQuoteFail.rand).raw_mock =
      true :=
  c3_quote_failure_returns_mock.1 "NVDA" envQuoteFail (by simp [getCachedData,
    getCachedMarketData, envQuoteFail]) rfl

/-! ## Claim C5: proposal arithmetic and the end-to-end example -/

/-- The proposal of the end-to-end run in the exact arithmetic form the
code produces (entry price from the tool payload, multiplied price levels,
parsed confidence). -/
def builtNvdaProposalRaw : TradeProposal :=
  ⟨TradeAction.BUY, "UNKNOWN", 10, nvdaMd.current_price, nvdaMd.current_price * 0.95,
   nvdaMd.current_price * 1.1, normalizeConfidence replyBuy, "3-7 days"⟩

/-- The confidence of the end-to-end reply normalizes to 0.78. -/
theorem normalizeConfidence_replyBuy : normalizeConfidence replyBuy = 0.78 := by
  have hf : findConfidence replyBuy.toList = some (['7', '8'], []) := by decide
  have hd : digitsToNat ['7', '8'] = 78 := by decide
  have hd2 : digitsToNat ([] : List Char) = 0 := rfl
  unfold normalizeConfidence
  rw [hf]
  show (if 1 < parseFloatDigits ['7', '8'] [] then parseFloatDigits ['7', '8'] [] / 100
        else parseFloatDigits ['7', '8'] []) = 0.78
  rw [parseFloatDigits, hd, hd2]
  norm_num

/-- The raw-form proposal equals the two-decimal literal form. -/
theorem builtNvdaProposalRaw_eq : builtNvdaProposalRaw = builtNvdaProposal := by
  unfold builtNvdaProposalRaw builtNvdaProposal
  rw [normalizeConfidence_replyBuy]
  have hcp : nvdaMd.current_price = 485.23 := rfl
  rw [hcp]
  norm_num [TradeProposal.mk.injEq]

/-- The end-to-end run builds exactly the raw-form proposal. -/
theorem runBuy_proposal :
    (runOrchestratorAgent ⟨"user-1", "Should I buy NVDA?"⟩ envBuy).proposal =
      some builtNvdaProposalRaw := rfl

/-- C5 counterexample: the end-to-end run builds a proposal whose stop
loss is 460.9685 (not 460.97), whose target is 533.753 (not 533.75) and
whose symbol is UNKNOWN (not NVDA, because the tool result payload carries
no symbol field); the proposal the claim asserts is not produced. -/
theorem c5_counterexample :
    (runOrchestratorAgent ⟨"user-1", "Should I buy NVDA?"⟩ envBuy).proposal =
      some builtNvdaProposal ∧
    (runOrchestratorAgent ⟨"user-1", "Should I buy NVDA?"⟩ envBuy).proposal ≠
      some claimedNvdaProposal ∧
    builtNvdaProposal.stop_loss ≠ claimedNvdaProposal.stop_loss ∧
    builtNvdaProposal.target_price ≠ claimedNvdaProposal.target_price ∧
    builtNvdaProposal.symbol ≠ claimedNvdaProposal.symbol := by
  have hrun : (runOrchestratorAgent ⟨"user-1", "Should I buy NVDA?"⟩ envBuy).proposal =
      some builtNvdaProposal := by
    rw [runBuy_proposal, builtNvdaProposalRaw_eq]
  refine ⟨hrun, ?_, ?_, ?_, ?_⟩
  · rw [hrun]
    intro hcontra
    rw [Option.some.injEq] at hcontra
    have hsym : builtNvdaProposal.symbol = claimedNvdaProposal.symbol := by
      rw [hcontra]
    simp [builtNvdaProposal, claimedNvdaProposal] at hsym
  · show (460.9685 : ℚ) ≠ 460.97
    norm_num
  · show (533.753 : ℚ) ≠ 533.75
    norm_num
  · simp [builtNvdaProposal, claimedNvdaProposal]

/-- C5 as amended: every proposal parseAgentResponse builds has entry
price equal to the current price of the probed payload (default 100),
holding window 3-7 days, and unrounded stop and target multiples: BUY
gives price times 0.95 and 1.1, SELL gives price times 1.05 and 0.9; the
end-to-end NVDA example produces the proposal with stop 460.9685, target
533.753, confidence 0.78 and symbol UNKNOWN (the tool payload has no
symbol field). -/
theorem c5_proposal_formulas :
    (∀ (response : String) (md : MarketRecord) (tech : AgentReasoning)
        (p : TradeProposal),
        (parseAgentResponse response md tech).2 = some p →
        p.entry_price = md.current_price.getD 100 ∧
        p.holding_window = "3-7 days" ∧
        (p.action = TradeAction.BUY ∨ p.action = TradeAction.SELL) ∧
        (p.action = TradeAction.BUY →
          p.stop_loss = p.entry_price * 0.95 ∧ p.target_price = p.entry_price * 1.1) ∧
        (p.action = TradeAction.SELL →
          p.stop_loss = p.entry_price * 1.05 ∧ p.target_price = p.entry_price * 0.9)) ∧
    (runOrchestratorAgent ⟨"user-1", "Should I buy NVDA?"⟩ envBuy).proposal =
      some builtNvdaProposal := by
  constructor
  · intro response md tech p h
    simp only [parseAgentResponse] at h
    rw [apply_ite Prod.snd] at h
    dsimp only at h
    split at h
    · rename_i hA
      rw [Option.some.injEq] at h
      subst h
      refine ⟨rfl, rfl, hA, ?_, ?_⟩
      · intro hbuy
        dsimp only at hbuy
        have hbuy2 : (findAction response.data).getD TradeAction.HOLD = TradeAction.BUY :=
          hbuy
        constructor <;> simp [hbuy2]
      · intro hsell
        dsimp only at hsell
        have hsell2 : (findAction response.data).getD TradeAction.HOLD = TradeAction.SELL :=
          hsell
        constructor <;> simp [hsell2]
    · exact absurd h (by simp)
  · rw [runBuy_proposal, builtNvdaProposalRaw_eq]

/-- Witness for C5: the general part applied to the end-to-end parse. -/
theorem c5_proposal_formulas_witness :
    builtNvdaProposalRaw.entry_price =
        (marketToolRecord nvdaMd).current_price.getD 100 ∧
    builtNvdaProposalRaw.holding_window = "3-7 days" ∧
    (builtNvdaProposalRaw.action = TradeAction.BUY ∨
      builtNvdaProposalRaw.action = TradeAction.SELL) ∧
    (builtNvdaProposalRaw.action = TradeAction.BUY →
      builtNvdaProposalRaw.stop_loss = builtNvdaProposalRaw.entry_price * 0.95 ∧
      builtNvdaProposalRaw.target_price = builtNvdaProposalRaw.entry_price * 1.1) ∧
    (builtNvdaProposalRaw.action = TradeAction.SELL →
      builtNvdaProposalRaw.stop_loss = builtNvdaProposalRaw.entry_price * 1.05 ∧
      builtNvdaProposalRaw.target_price = builtNvdaProposalRaw.entry_price * 0.9) :=
  c5_proposal_formulas.1 replyBuy (marketToolRecord nvdaMd) tech0
    builtNvdaProposalRaw rfl

/-! ## Claim C8: RSI bounds and extremes -/

/-- The average gain is nonnegative. -/
theorem avgGain_nonneg (prices : List ℚ) : 0 ≤ avgGain prices 14 := by
  unfold avgGain
  apply div_nonneg _ (by norm_num)
  apply List.sum_nonneg
  intro x hx
  exact rsiGains_mem_nonneg (sliceLast_mem hx)

/-- The average loss is nonnegative. -/
theorem avgLoss_nonneg (prices : List ℚ) : 0 ≤ avgLoss prices 14 := by
  unfold avgLoss
  apply div_nonneg _ (by norm_num)
  apply List.sum_nonneg
  intro x hx
  exact rsiLosses_mem_nonneg (sliceLast_mem hx)

/-- C8: RSI at period 14 always lies in the closed interval 0 to 100; it
is 50 for fewer than 15 samples, 100 whenever the average loss over the
last 14 deltas is 0 (hence 100 on every strictly increasing series longer
than 14), and 0 on every strictly decreasing series longer than 14. -/
theorem c8_rsi_bounds :
    (∀ prices : List ℚ, 0 ≤ calculateRSI prices 14 ∧ calculateRSI prices 14 ≤ 100) ∧
    (∀ prices : List ℚ, prices.length < 15 → calculateRSI prices 14 = 50) ∧
    (∀ prices : List ℚ, 15 ≤ prices.length → avgLoss prices 14 = 0 →
        calculateRSI prices 14 = 100) ∧
    (∀ prices : List ℚ, 14 < prices.length → List.Chain' (· < ·) prices →
        calculateRSI prices 14 = 100) ∧
    (∀ prices : List ℚ, 14 < prices.length → List.Chain' (· > ·) prices →
        calculateRSI prices 14 = 0) := by
  have hzeroLoss : ∀ prices : List ℚ, 15 ≤ prices.length → avgLoss prices 14 = 0 →
      calculateRSI prices 14 = 100 := by
    intro prices h15 hloss
    rw [calculateRSI_of_ge prices h15, if_pos hloss]
  refine ⟨?_, calculateRSI_of_lt, hzeroLoss, ?_, ?_⟩
  · intro prices
    by_cases hlen : prices.length < 15
    · rw [calculateRSI_of_lt prices hlen]
      norm_num
    · rw [calculateRSI_of_ge prices (by omega)]
      by_cases hloss : avgLoss prices 14 = 0
      · rw [if_pos hloss]
        norm_num
      · rw [if_neg hloss]
        have hl0 : 0 < avgLoss prices 14 :=
          lt_of_le_of_ne (avgLoss_nonneg prices) (Ne.symm hloss)
        have hrs : 0 ≤ avgGain prices 14 / avgLoss prices 14 :=
          div_nonneg (avgGain_nonneg prices) (le_of_lt hl0)
        have h1 : (0 : ℚ) < 1 + avgGain prices 14 / avgLoss prices 14 := by linarith
        have hfrac : 100 / (1 + avgGain prices 14 / avgLoss prices 14) ≤ 100 := by
          rw [div_le_iff₀ h1]
          nlinarith
        have hfracpos : 0 < 100 / (1 + avgGain prices 14 / avgLoss prices 14) := by
          positivity
        exact round2_bounds (by linarith) (by linarith)
  · intro prices hlen hchain
    apply hzeroLoss prices (by omega)
    unfold avgLoss
    have hall : ∀ x ∈ sliceLast 14 (rsiLosses (priceChanges prices)), x = 0 := by
      intro x hx
      have hx2 : x ∈ rsiLosses (priceChanges prices) := sliceLast_mem hx
      unfold rsiLosses at hx2
      rw [List.mem_map] at hx2
      obtain ⟨c, hc, rfl⟩ := hx2
      have hcpos := priceChanges_pos prices hchain c hc
      rw [if_neg (by linarith)]
    rw [List.sum_eq_zero hall, zero_div]
  · intro prices hlen hchain
    have hneg := priceChanges_neg prices hchain
    have hgain : avgGain prices 14 = 0 := by
      unfold avgGain
      have hall : ∀ x ∈ sliceLast 14 (rsiGains (priceChanges prices)), x = 0 := by
        intro x hx
        have hx2 : x ∈ rsiGains (priceChanges prices) := sliceLast_mem hx
        unfold rsiGains at hx2
        rw [List.mem_map] at hx2
        obtain ⟨c, hc, rfl⟩ := hx2
        have hcneg := hneg c hc
        rw [if_neg (by linarith)]
      rw [List.sum_eq_zero hall, zero_div]
    have hlossLen : (sliceLast 14 (rsiLosses (priceChanges prices))).length = 14 := by
      apply sliceLast_length_of_le
      unfold rsiLosses
      rw [List.length_map, priceChanges_length]
      omega
    have hlossPos : 0 < avgLoss prices 14 := by
      unfold avgLoss
      apply div_pos _ (by norm_num)
      apply List.sum_pos
      · intro x hx
        have hx2 : x ∈ rsiLosses (priceChanges prices) := sliceLast_mem hx
        unfold rsiLosses at hx2
        rw [List.mem_map] at hx2
        obtain ⟨c, hc, rfl⟩ := hx2
        have hcneg := hneg c hc
        rw [if_pos hcneg]
        exact abs_pos.mpr (by linarith)
      · intro hcontra
        rw [hcontra] at hlossLen
        simp at hlossLen
    rw [calculateRSI_of_ge prices (by omega), if_neg (ne_of_gt hlossPos)]
    rw [hgain, zero_div]
    norm_num [round2_zero]

/-- Witness for C8 at concrete series: a short series gives 50, a strictly
increasing 15-sample series gives 100, a strictly decreasing one gives 0. -/
theorem c8_rsi_bounds_witness :
    calculateRSI [1, 2, 3] 14 = 50 ∧
    calculateRSI [1, 2, 3, 4, 5, 6, 7, 8, 9, 10, 11, 12, 13, 14, 15] 14 = 100 ∧
    calculateRSI [15, 14, 13, 12, 11, 10, 9, 8, 7, 6, 5, 4, 3, 2, 1] 14 = 0 ∧
    0 ≤ calculateRSI [3, 1, 4, 1, 5] 14 ∧ calculateRSI [3, 1, 4, 1, 5] 14 ≤ 100 :=
  ⟨c8_rsi_bounds.2.1 [1, 2, 3] (by norm_num),
   c8_rsi_bounds.2.2.2.1 [1, 2, 3, 4, 5, 6, 7, 8, 9, 10, 11, 12, 13, 14, 15]
     (by norm_num)
     (by norm_num [List.chain'_cons, List.chain'_singleton]),
   c8_rsi_bounds.2.2.2.2 [15, 14, 13, 12, 11, 10, 9, 8, 7, 6, 5, 4, 3, 2, 1]
     (by norm_num)
     (by norm_num [List.chain'_cons, List.chain'_singleton]),
   (c8_rsi_bounds.1 [3, 1, 4, 1, 5]).1,
   (c8_rsi_bounds.1 [3, 1, 4, 1, 5]).2⟩

end Atlas
